import Mathlib

/-!
Formal model of the AskAI service (`src/main.py`): a FastAPI app over one
table `conversation_history`, with three stateful endpoints, `ask_ai`
(POST /ask), `get_conversation_history` (GET /history) and
`delete_conversation` (DELETE /delete/convo_id).  Handlers are embedded
as pure functions over an explicit database state.  The fallible
collaborators (the OpenAI completion call and the SQLAlchemy storage
operations) are passed in as `Except String`-valued arguments, one per
point in the Python code where an exception can arise; `.error e` means
the collaborator raised an exception whose `str` is `e`.
-/

namespace AskAI

/-- A row of the `conversation_history` table (class `Conversation` in
`main.py`): integer primary key, two non-null text columns, and a
timestamp assigned by the server at insert. -/
structure Conversation where
  id : Nat
  user_input : String
  ai_response : String
  created_at : Nat
  deriving Repr, DecidableEq

/-- Database state: the stored rows, the next id the storage engine will
assign to an inserted row (auto-incrementing primary key), and a server
clock supplying `created_at` values. -/
structure DB where
  rows : List Conversation
  nextId : Nat
  clock : Nat
  deriving Repr, DecidableEq

/-- Request body of POST /ask (pydantic model `Prompt`). -/
structure Prompt where
  user_input : String
  deriving Repr, DecidableEq

/-- One chat message sent to the completion collaborator. -/
structure Message where
  role : String
  content : String
  deriving Repr, DecidableEq

/-- The request `ask_ai` builds for `client.chat.completions.create`. -/
structure CompletionRequest where
  model : String
  messages : List Message
  deriving Repr, DecidableEq

/-- A FastAPI `HTTPException` as raised by a handler. -/
structure HTTPError where
  status_code : Nat
  detail : String
  deriving Repr, DecidableEq

/-- Python `str(e)` applied to an `HTTPException` caught as a plain
`Exception` (starlette renders it as the status code, a colon and the
detail). -/
def httpExceptionStr (status_code : Nat) (detail : String) : String :=
  toString status_code ++ ": " ++ detail

/-- Result of one handler call: the HTTP outcome, the table afterwards,
and whether the handler opened, and explicitly closed, its storage
session. -/
structure Outcome (α : Type) where
  result : Except HTTPError α
  db : DB
  sessionOpened : Bool
  sessionClosed : Bool
  deriving Repr

/-- Outcome of `ask_ai`, additionally recording the request it sent to
the completion collaborator. -/
structure AskOutcome where
  request : CompletionRequest
  result : Except HTTPError String
  db : DB
  sessionOpened : Bool
  sessionClosed : Bool
  deriving Repr

/-- The two messages `ask_ai` sends: the hard-coded system preamble
(verbatim from the source, including its trailing period) and the user
text unchanged. -/
def askMessages (prompt : Prompt) : List Message :=
  [⟨"system", "You are a helpful assistant."⟩, ⟨"user", prompt.user_input⟩]

/-- The model name hard-coded in `ask_ai`. -/
def askModel : String := "gpt-3.5-turbo"

/-- Insertion performed by a successful `ask_ai`: the storage layer
assigns the id and the timestamp. -/
def DB.insert (db : DB) (ui ar : String) : DB :=
  ⟨db.rows ++ [⟨db.nextId, ui, ar, db.clock⟩], db.nextId + 1, db.clock + 1⟩

/-- POST /ask (`ask_ai` in `main.py`).  `completion` is the outcome of
the OpenAI call, `commit` the outcome of the add/commit.  When the
completion call raises, the session has not been opened yet; when the
add/commit raises, the session is open but the handler has no `finally`,
so nothing closes it before the 500 is raised. -/
def ask_ai (prompt : Prompt) (completion : Except String String)
    (commit : Except String Unit) (db : DB) : AskOutcome :=
  let req : CompletionRequest := ⟨askModel, askMessages prompt⟩
  match completion with
  | .error e => ⟨req, .error ⟨500, e⟩, db, false, false⟩
  | .ok ai_message =>
    match commit with
    | .error e => ⟨req, .error ⟨500, e⟩, db, true, false⟩
    | .ok _ =>
      ⟨req, .ok ai_message, db.insert prompt.user_input ai_message, true, true⟩

/-- GET /history (`get_conversation_history` in `main.py`).  `query` is
the outcome of the SELECT, which orders by id descending and returns
every row with its four fields; there is no limit.  The session is
closed only on the success path: the handler has no `finally`. -/
def get_conversation_history (query : Except String Unit) (db : DB) :
    Outcome (List Conversation) :=
  match query with
  | .error e => ⟨.error ⟨500, e⟩, db, true, false⟩
  | .ok _ =>
    ⟨.ok (db.rows.mergeSort (fun a b => decide (b.id ≤ a.id))), db, true, true⟩

/-- DELETE /delete/convo_id (`delete_conversation` in `main.py`).
`lookup` is the outcome of the SELECT, `commit` of the delete/commit.
The session is opened before the `try` and the `finally` always closes
it; every raising path first rolls back, leaving the table unchanged.
The `HTTPException` with status 404 raised inside the `try` when the id
is absent is itself an `Exception`, so the blanket `except` catches it
and re-raises a 500 whose detail is the `str` of the 404 exception. -/
def delete_conversation (convo_id : Nat) (lookup commit : Except String Unit)
    (db : DB) : Outcome String :=
  match lookup with
  | .error e => ⟨.error ⟨500, e⟩, db, true, true⟩
  | .ok _ =>
    match db.rows.find? (fun c => c.id == convo_id) with
    | none =>
      ⟨.error ⟨500, httpExceptionStr 404 "Conversation not found"⟩, db, true, true⟩
    | some _ =>
      match commit with
      | .error e => ⟨.error ⟨500, e⟩, db, true, true⟩
      | .ok _ =>
        ⟨.ok ("Conversation with ID " ++ toString convo_id ++ " deleted successfully."),
         ⟨db.rows.eraseP (fun c => c.id == convo_id), db.nextId, db.clock⟩, true, true⟩

/-- Uniqueness of ids, guaranteed by the primary key. -/
def DB.UniqueIds (db : DB) : Prop :=
  db.rows.Pairwise (fun a b => a.id ≠ b.id)

instance (db : DB) : Decidable db.UniqueIds := by
  unfold DB.UniqueIds; infer_instance

/-- C1: contrary to the claim, deleting an id absent from the table does
not answer 404.  The first conjunct evaluates a delete of the never
created id 1 against the empty table; the second runs the two-call
scenario, deleting id 1 from a table that holds it and then deleting it
again: the second call, like the first-conjunct call, yields a 500 whose
detail is the stringified 404 exception, because the blanket `except`
swallows the `HTTPException(404)`. -/
theorem delete_absent_id_gives_500_not_404 :
    (delete_conversation 1 (.ok ()) (.ok ()) ⟨[], 1, 0⟩).result
      = .error ⟨500, "404: Conversation not found"⟩ ∧
    (delete_conversation 1 (.ok ()) (.ok ())
        (delete_conversation 1 (.ok ()) (.ok ())
          ⟨[⟨1, "hi", "there", 0⟩], 2, 1⟩).db).result
      = .error ⟨500, "404: Conversation not found"⟩ :=
  ⟨rfl, rfl⟩

/-- C5: whenever the delete handler signals an error (a lookup failure, a
commit failure, or the absent-id path), the rollback leaves the table
exactly as it was. -/
theorem delete_error_leaves_table (convo_id : Nat)
    (lookup commit : Except String Unit) (db : DB) (err : HTTPError)
    (h : (delete_conversation convo_id lookup commit db).result = .error err) :
    (delete_conversation convo_id lookup commit db).db = db := by
  cases lookup with
  | error e => rfl
  | ok u =>
    cases hf : db.rows.find? (fun c => c.id == convo_id) with
    | none => simp [delete_conversation, hf]
    | some c =>
      cases commit with
      | error e => simp [delete_conversation, hf]
      | ok v => simp [delete_conversation, hf] at h

/-- Witness for C5: a lookup failure on a one-row table raises a 500 and
the table is unchanged. -/
theorem delete_error_leaves_table_witness :
    (delete_conversation 1 (.error "boom") (.ok ())
        ⟨[⟨1, "a", "b", 0⟩], 2, 1⟩).result = .error ⟨500, "boom"⟩ ∧
    (delete_conversation 1 (.error "boom") (.ok ())
        ⟨[⟨1, "a", "b", 0⟩], 2, 1⟩).db = ⟨[⟨1, "a", "b", 0⟩], 2, 1⟩ :=
  ⟨rfl, delete_error_leaves_table 1 (.error "boom") (.ok ())
    ⟨[⟨1, "a", "b", 0⟩], 2, 1⟩ ⟨500, "boom"⟩ rfl⟩

/-- C6 fails as stated: content is never validated, so a successful ask
whose user_input is empty (and whose completion text is empty) stores a
row with empty user_input and empty ai_response. -/
theorem stored_row_may_be_empty :
    (ask_ai ⟨""⟩ (.ok "") (.ok ()) ⟨[], 1, 0⟩).result = .ok "" ∧
    (ask_ai ⟨""⟩ (.ok "") (.ok ()) ⟨[], 1, 0⟩).db.rows.map
        (fun c => (c.user_input, c.ai_response)) = [("", "")] :=
  ⟨rfl, rfl⟩

/-- C6 amended: the two text fields are always present but may be empty.
The lifecycle part holds: a successful ask appends exactly one row built
from the request text and the completion text, history never changes the
table, and delete only ever removes rows, leaving a sublist. -/
theorem exchange_lifecycle (prompt : Prompt) (msg : String)
    (commit query lookup dcommit : Except String Unit) (convo_id : Nat)
    (db : DB) :
    ((ask_ai prompt (.ok msg) commit db).db.rows = db.rows ∨
      (ask_ai prompt (.ok msg) commit db).db.rows
        = db.rows ++ [⟨db.nextId, prompt.user_input, msg, db.clock⟩]) ∧
    (get_conversation_history query db).db.rows = db.rows ∧
    ((delete_conversation convo_id lookup dcommit db).db.rows).Sublist db.rows := by
  refine ⟨?_, ?_, ?_⟩
  · cases commit with
    | error e => exact Or.inl rfl
    | ok u => exact Or.inr rfl
  · cases query <;> rfl
  · cases lookup with
    | error e => simp [delete_conversation]
    | ok u =>
      cases hf : db.rows.find? (fun c => c.id == convo_id) with
      | none => simp [delete_conversation, hf]
      | some c =>
        cases dcommit with
        | error e => simp [delete_conversation, hf]
        | ok v => simpa [delete_conversation, hf] using
            @List.eraseP_sublist Conversation (fun c => c.id == convo_id) db.rows

/-- C7: every injected failure of the ask operation (a completion-call
failure with any pending commit outcome, or a storage failure after a
successful completion) and every failure of the history operation is
surfaced as a 500 whose detail is exactly the underlying exception
message, with no differentiation by kind. -/
theorem failures_surface_as_500 (e msg : String) (prompt : Prompt)
    (commit : Except String Unit) (db : DB) :
    (ask_ai prompt (.error e) commit db).result = .error ⟨500, e⟩ ∧
    (ask_ai prompt (.ok msg) (.error e) db).result = .error ⟨500, e⟩ ∧
    (get_conversation_history (.error e) db).result = .error ⟨500, e⟩ :=
  ⟨rfl, rfl, rfl⟩

/-- C8 fails as stated: the ask handler has no `finally`, so when the
storage commit raises after the session was opened, the 500 is raised
with the session still open. -/
theorem ask_commit_failure_leaks_session :
    (ask_ai ⟨"hi"⟩ (.ok "resp") (.error "db down") ⟨[], 1, 0⟩).sessionOpened
      = true ∧
    (ask_ai ⟨"hi"⟩ (.ok "resp") (.error "db down") ⟨[], 1, 0⟩).result
      = .error ⟨500, "db down"⟩ ∧
    (ask_ai ⟨"hi"⟩ (.ok "resp") (.error "db down") ⟨[], 1, 0⟩).sessionClosed
      = false :=
  ⟨rfl, rfl, rfl⟩

/-- C8 amended: ask and history close their session exactly on the
success path, leaving it open when the storage operation fails after the
session was opened; delete alone has a `finally` and closes its session
on every path, success, 500 or swallowed 404 alike. -/
theorem session_release (prompt : Prompt) (msg e : String) (db : DB)
    (convo_id : Nat) (lookup commit : Except String Unit) :
    (ask_ai prompt (.ok msg) (.ok ()) db).sessionClosed = true ∧
    (ask_ai prompt (.ok msg) (.error e) db).sessionClosed = false ∧
    (get_conversation_history (.ok ()) db).sessionClosed = true ∧
    (get_conversation_history (.error e) db).sessionClosed = false ∧
    (delete_conversation convo_id lookup commit db).sessionOpened = true ∧
    (delete_conversation convo_id lookup commit db).sessionClosed = true := by
  refine ⟨rfl, rfl, rfl, rfl, ?_, ?_⟩ <;>
  · cases lookup with
    | error e2 => rfl
    | ok u =>
      cases hf : db.rows.find? (fun c => c.id == convo_id) with
      | none => simp [delete_conversation, hf]
      | some c => cases commit <;> simp [delete_conversation, hf]

/-- C2: a 200 from POST /ask means a row holding exactly the request's
user_input and the collaborator's text was persisted, and that row shows
up in a subsequent successful history result. -/
theorem ask_ok_persists_exchange (prompt : Prompt)
    (completion : Except String String) (commit : Except String Unit)
    (db : DB) (resp : String)
    (h : (ask_ai prompt completion commit db).result = .ok resp) :
    ∃ c, c ∈ (ask_ai prompt completion commit db).db.rows ∧
      c.user_input = prompt.user_input ∧ c.ai_response = resp ∧
      ∀ l, (get_conversation_history (.ok ())
          (ask_ai prompt completion commit db).db).result = .ok l → c ∈ l := by
  cases completion with
  | error e => simp [ask_ai] at h
  | ok msg =>
    cases commit with
    | error e => simp [ask_ai] at h
    | ok u =>
      have hmsg : msg = resp := by simpa [ask_ai] using h
      subst hmsg
      refine ⟨⟨db.nextId, prompt.user_input, msg, db.clock⟩, ?_, rfl, rfl, ?_⟩
      · simp [ask_ai, DB.insert]
      · intro l hl
        have hl2 : ((ask_ai prompt (.ok msg) (.ok u) db).db.rows.mergeSort
            (fun a b => decide (b.id ≤ a.id))) = l := by
          simpa [get_conversation_history] using hl
        rw [← hl2, List.mem_mergeSort]
        simp [ask_ai, DB.insert]

/-- Witness for C2: asking "hello" with completion text "hi!" against the
empty table persists the exchange and history shows it. -/
theorem ask_ok_persists_exchange_witness :
    (ask_ai ⟨"hello"⟩ (.ok "hi!") (.ok ()) ⟨[], 1, 0⟩).result = .ok "hi!" ∧
    ∃ c, c ∈ (ask_ai ⟨"hello"⟩ (.ok "hi!") (.ok ()) ⟨[], 1, 0⟩).db.rows ∧
      c.user_input = "hello" ∧ c.ai_response = "hi!" ∧
      ∀ l, (get_conversation_history (.ok ())
          (ask_ai ⟨"hello"⟩ (.ok "hi!") (.ok ()) ⟨[], 1, 0⟩).db).result = .ok l →
        c ∈ l :=
  ⟨rfl, ask_ok_persists_exchange ⟨"hello"⟩ (.ok "hi!") (.ok ()) ⟨[], 1, 0⟩ "hi!" rfl⟩

/-- C3: with ids unique (the primary key), GET /history succeeds and
returns every stored row, each with its four fields (a permutation of the
table: nothing filtered, no limit), in strictly descending id order. -/
theorem history_returns_all_sorted (db : DB) (h : db.UniqueIds) :
    ∃ l, (get_conversation_history (.ok ()) db).result = .ok l ∧
      l.Perm db.rows ∧ l.Pairwise (fun a b => b.id < a.id) := by
  refine ⟨db.rows.mergeSort (fun a b => decide (b.id ≤ a.id)), rfl,
    List.mergeSort_perm _ _, ?_⟩
  have hsorted := @List.sorted_mergeSort Conversation
    (fun a b : Conversation => decide (b.id ≤ a.id))
    (fun a b c hab hbc => by
      simp only [decide_eq_true_eq] at *; omega)
    (fun a b => by
      simp only [Bool.or_eq_true, decide_eq_true_eq]; omega)
    db.rows
  have hne : (db.rows.mergeSort (fun a b => decide (b.id ≤ a.id))).Pairwise
      (fun a b => a.id ≠ b.id) :=
    ((List.mergeSort_perm db.rows _).pairwise_iff
      (fun hxy => Ne.symm hxy)).mpr h
  exact (hsorted.and hne).imp (fun hab => by
    simp only [decide_eq_true_eq] at hab; omega)

/-- Witness for C3: a two-row table with distinct ids. -/
theorem history_returns_all_sorted_witness :
    DB.UniqueIds ⟨[⟨1, "a", "b", 0⟩, ⟨2, "c", "d", 1⟩], 3, 2⟩ ∧
    ∃ l, (get_conversation_history (.ok ())
        ⟨[⟨1, "a", "b", 0⟩, ⟨2, "c", "d", 1⟩], 3, 2⟩).result = .ok l ∧
      l.Perm [⟨1, "a", "b", 0⟩, ⟨2, "c", "d", 1⟩] ∧
      l.Pairwise (fun a b => b.id < a.id) :=
  ⟨by decide, history_returns_all_sorted ⟨[⟨1, "a", "b", 0⟩, ⟨2, "c", "d", 1⟩], 3, 2⟩
    (by decide)⟩

/-- When ids are pairwise distinct, no row carrying the erased id
survives `eraseP`: the single matching row is the erased one. -/
theorem eraseP_id_not_mem (l : List Conversation) (i : Nat)
    (hd : l.Pairwise (fun a b => a.id ≠ b.id)) :
    ∀ r ∈ l.eraseP (fun c => c.id == i), r.id ≠ i := by
  induction l with
  | nil => intro r hr; simp at hr
  | cons a t ih =>
    intro r hr
    by_cases ha : a.id = i
    · have he : (a :: t).eraseP (fun c => c.id == i) = t := by
        simp [List.eraseP_cons, ha]
      rw [he] at hr
      have hat := (List.pairwise_cons.mp hd).1 r hr
      omega
    · have he : (a :: t).eraseP (fun c => c.id == i)
          = a :: t.eraseP (fun c => c.id == i) := by
        simp [List.eraseP_cons, ha]
      rw [he] at hr
      rcases List.mem_cons.mp hr with rfl | hr2
      · exact ha
      · exact ih (List.pairwise_cons.mp hd).2 r hr2

/-- C4: deleting an id present in a table with unique ids succeeds with
the exact message naming the id, and no row with that id appears in a
subsequent history result. -/
theorem delete_existing_removes_and_confirms (convo_id : Nat) (db : DB)
    (hu : db.UniqueIds) (hex : ∃ c ∈ db.rows, c.id = convo_id) :
    (delete_conversation convo_id (.ok ()) (.ok ()) db).result
      = .ok ("Conversation with ID " ++ toString convo_id
          ++ " deleted successfully.") ∧
    ∀ l, (get_conversation_history (.ok ())
        (delete_conversation convo_id (.ok ()) (.ok ()) db).db).result = .ok l →
      ∀ r ∈ l, r.id ≠ convo_id := by
  obtain ⟨c, hc, hcid⟩ := hex
  cases hf : db.rows.find? (fun x => x.id == convo_id) with
  | none =>
    exact absurd (List.find?_eq_none.mp hf c hc) (by simp [hcid])
  | some c' =>
    constructor
    · simp [delete_conversation, hf]
    · intro l hl r hr
      have hl2 : ((delete_conversation convo_id (.ok ()) (.ok ()) db).db.rows.mergeSort
          (fun a b => decide (b.id ≤ a.id))) = l := by
        simpa [get_conversation_history] using hl
      rw [← hl2, List.mem_mergeSort] at hr
      have hrows : (delete_conversation convo_id (.ok ()) (.ok ()) db).db.rows
          = db.rows.eraseP (fun x => x.id == convo_id) := by
        simp [delete_conversation, hf]
      rw [hrows] at hr
      exact eraseP_id_not_mem db.rows convo_id hu r hr

/-- Witness for C4: deleting id 1 from a one-row table holding id 1. -/
theorem delete_existing_removes_and_confirms_witness :
    DB.UniqueIds ⟨[⟨1, "q", "a", 0⟩], 2, 1⟩ ∧
    (∃ c ∈ ([⟨1, "q", "a", 0⟩] : List Conversation), c.id = 1) ∧
    ((delete_conversation 1 (.ok ()) (.ok ()) ⟨[⟨1, "q", "a", 0⟩], 2, 1⟩).result
      = .ok ("Conversation with ID " ++ toString 1 ++ " deleted successfully.") ∧
    ∀ l, (get_conversation_history (.ok ())
        (delete_conversation 1 (.ok ()) (.ok ())
          ⟨[⟨1, "q", "a", 0⟩], 2, 1⟩).db).result = .ok l →
      ∀ r ∈ l, r.id ≠ 1) :=
  ⟨by decide, ⟨⟨1, "q", "a", 0⟩, by decide, rfl⟩,
    delete_existing_removes_and_confirms 1 ⟨[⟨1, "q", "a", 0⟩], 2, 1⟩ (by decide)
      ⟨⟨1, "q", "a", 0⟩, by decide, rfl⟩⟩

/-- C9 fails as stated: the system preamble hard-coded in the source
carries a trailing period, so the system message content differs from the
claimed string "You are a helpful assistant". -/
theorem system_preamble_not_claimed_string :
    (ask_ai ⟨"hi"⟩ (.ok "resp") (.ok ()) ⟨[], 1, 0⟩).request.messages.map
        Message.content = ["You are a helpful assistant.", "hi"] ∧
    (ask_ai ⟨"hi"⟩ (.ok "resp") (.ok ()) ⟨[], 1, 0⟩).request.messages.map
        Message.content ≠ ["You are a helpful assistant", "hi"] :=
  ⟨rfl, by decide⟩

/-- C9 amended: for every request and every collaborator outcome, the
completion collaborator is invoked with exactly two messages, the fixed
system preamble "You are a helpful assistant." and the user text
unchanged, under the hard-coded model "gpt-3.5-turbo", which does not
depend on the request. -/
theorem ask_request_shape (prompt : Prompt) (completion : Except String String)
    (commit : Except String Unit) (db : DB) :
    (ask_ai prompt completion commit db).request.messages
      = [⟨"system", "You are a helpful assistant."⟩,
         ⟨"user", prompt.user_input⟩] ∧
    (ask_ai prompt completion commit db).request.model = "gpt-3.5-turbo" := by
  have hreq : (ask_ai prompt completion commit db).request
      = ⟨askModel, askMessages prompt⟩ := by
    cases completion with
    | error e => rfl
    | ok m => cases commit <;> rfl
  rw [hreq]
  exact ⟨rfl, rfl⟩

/-- C10: delete removes at most the single matching row: every stored row
whose id differs from the requested id is still present, unchanged, in
the table afterwards, on every path of the handler. -/
theorem delete_frame (convo_id : Nat) (lookup commit : Except String Unit)
    (db : DB) (r : Conversation) (hr : r ∈ db.rows) (hne : r.id ≠ convo_id) :
    r ∈ (delete_conversation convo_id lookup commit db).db.rows := by
  cases lookup with
  | error e => simpa [delete_conversation] using hr
  | ok u =>
    cases hf : db.rows.find? (fun c => c.id == convo_id) with
    | none => simpa [delete_conversation, hf] using hr
    | some c =>
      cases commit with
      | error e => simpa [delete_conversation, hf] using hr
      | ok v =>
        have : r ∈ db.rows.eraseP (fun c => c.id == convo_id) :=
          (List.mem_eraseP_of_neg (by simp [hne])).mpr hr
        simpa [delete_conversation, hf] using this

/-- Witness for C10: deleting id 1 from a two-row table leaves the row
with id 2 in place. -/
theorem delete_frame_witness :
    (⟨2, "c", "d", 1⟩ : Conversation) ∈
        ([⟨1, "a", "b", 0⟩, ⟨2, "c", "d", 1⟩] : List Conversation) ∧
    (⟨2, "c", "d", 1⟩ : Conversation).id ≠ 1 ∧
    (⟨2, "c", "d", 1⟩ : Conversation) ∈ (delete_conversation 1 (.ok ()) (.ok ())
        ⟨[⟨1, "a", "b", 0⟩, ⟨2, "c", "d", 1⟩], 3, 2⟩).db.rows :=
  ⟨by decide, by decide,
    delete_frame 1 (.ok ()) (.ok ()) ⟨[⟨1, "a", "b", 0⟩, ⟨2, "c", "d", 1⟩], 3, 2⟩
      ⟨2, "c", "d", 1⟩ (by decide) (by decide)⟩

end AskAI
